import Mathlib

/-!
The ZooKeeper adapter of ebbrt-contrib.

A verification development over `libraries/zookeeper/include/ZooKeeper.h` and
`apps/zk/baremetal/src/zk.cc`.

* `ebbrt.ZooKeeper.Watcher.WatchHandler` is the routing of raw watch
  notifications to the ten capability methods of a `Watcher`.
* `ebbrt.ZooKeeper.Create` and `ebbrt.ZooKeeper.HandleFault` are the two static
  functions that register an adapter under an `EbbId` and resolve it again.
* `PrinterWatcher` is the watcher of the `zk` application.
-/

namespace ebbrt

/-! ## Constants -/

/-- The `int` constants that `ZooKeeper.h` takes from the ZooKeeper C client
header `<zookeeper.h>`.  That header is not part of this repository, so the
development is parametric in the eleven values. -/
structure ZooConsts where
  ZOO_CREATED_EVENT : Int
  ZOO_DELETED_EVENT : Int
  ZOO_CHANGED_EVENT : Int
  ZOO_CHILD_EVENT : Int
  ZOO_SESSION_EVENT : Int
  ZOO_NOTWATCHING_EVENT : Int
  ZOO_EXPIRED_SESSION_STATE : Int
  ZOO_AUTH_FAILED_STATE : Int
  ZOO_CONNECTING_STATE : Int
  ZOO_ASSOCIATING_STATE : Int
  ZOO_CONNECTED_STATE : Int

/-- The values the Apache ZooKeeper C client gives to the constants
(`zookeeper.c`: events 1, 2, 3, 4, -1, -2; states -112, -113, 1, 2, 3). -/
def zookeeper_h : ZooConsts where
  ZOO_CREATED_EVENT := 1
  ZOO_DELETED_EVENT := 2
  ZOO_CHANGED_EVENT := 3
  ZOO_CHILD_EVENT := 4
  ZOO_SESSION_EVENT := -1
  ZOO_NOTWATCHING_EVENT := -2
  ZOO_EXPIRED_SESSION_STATE := -112
  ZOO_AUTH_FAILED_STATE := -113
  ZOO_CONNECTING_STATE := 1
  ZOO_ASSOCIATING_STATE := 2
  ZOO_CONNECTED_STATE := 3

/-- The six event-type constants are pairwise different. -/
def ZooConsts.TypesDistinct (c : ZooConsts) : Prop :=
  [c.ZOO_SESSION_EVENT, c.ZOO_CREATED_EVENT, c.ZOO_DELETED_EVENT,
    c.ZOO_CHANGED_EVENT, c.ZOO_CHILD_EVENT, c.ZOO_NOTWATCHING_EVENT].Nodup

/-- The five session-state constants are pairwise different. -/
def ZooConsts.StatesDistinct (c : ZooConsts) : Prop :=
  [c.ZOO_EXPIRED_SESSION_STATE, c.ZOO_CONNECTED_STATE, c.ZOO_CONNECTING_STATE,
    c.ZOO_ASSOCIATING_STATE, c.ZOO_AUTH_FAILED_STATE].Nodup

instance (c : ZooConsts) : Decidable c.TypesDistinct :=
  inferInstanceAs (Decidable (List.Nodup _))

instance (c : ZooConsts) : Decidable c.StatesDistinct :=
  inferInstanceAs (Decidable (List.Nodup _))

/-- The `state` is one of the five session states of the protocol. -/
def ZooConsts.KnownState (c : ZooConsts) (state : Int) : Prop :=
  state = c.ZOO_EXPIRED_SESSION_STATE ∨ state = c.ZOO_CONNECTED_STATE ∨
  state = c.ZOO_CONNECTING_STATE ∨ state = c.ZOO_ASSOCIATING_STATE ∨
  state = c.ZOO_AUTH_FAILED_STATE

/-- The `type` is one of the five node-level event types. -/
def ZooConsts.NodeEvent (c : ZooConsts) (type : Int) : Prop :=
  type = c.ZOO_CREATED_EVENT ∨ type = c.ZOO_DELETED_EVENT ∨
  type = c.ZOO_CHANGED_EVENT ∨ type = c.ZOO_CHILD_EVENT ∨
  type = c.ZOO_NOTWATCHING_EVENT

/-- The `type` is one of the six event types of the protocol. -/
def ZooConsts.KnownType (c : ZooConsts) (type : Int) : Prop :=
  type = c.ZOO_SESSION_EVENT ∨ c.NodeEvent type

/-- A documented `(type, state)` pair: a session event in one of the five
session states, or a node-level event (whose state the handler never reads). -/
def ZooConsts.ValidPair (c : ZooConsts) (type state : Int) : Prop :=
  (type = c.ZOO_SESSION_EVENT ∧ c.KnownState state) ∨ c.NodeEvent type

instance (c : ZooConsts) (state : Int) : Decidable (c.KnownState state) :=
  inferInstanceAs (Decidable (_ ∨ _))

instance (c : ZooConsts) (type : Int) : Decidable (c.NodeEvent type) :=
  inferInstanceAs (Decidable (_ ∨ _))

instance (c : ZooConsts) (type : Int) : Decidable (c.KnownType type) :=
  inferInstanceAs (Decidable (_ ∨ _))

instance (c : ZooConsts) (type state : Int) : Decidable (c.ValidPair type state) :=
  inferInstanceAs (Decidable (_ ∨ _))

/-! ## Outcomes of a call that may abort the process -/

/-- How a call of a `void` function ends: it returns with the observable state
`s`, or `ebbrt::kabort` stops the process with message `msg` while the
observable state is `s`. -/
inductive Outcome (σ : Type) where
  | returned (s : σ)
  | aborted (msg : String) (s : σ)
  deriving DecidableEq, Repr

/-- True when the call ended in `ebbrt::kabort`. -/
def Outcome.isAborted {σ : Type} : Outcome σ → Bool
  | .returned _ => false
  | .aborted _ _ => true

/-- The observable state at the end of the call. -/
def Outcome.state {σ : Type} : Outcome σ → σ
  | .returned s => s
  | .aborted _ s => s

/-- The `ebbrt::kabort(msg)` of `<ebbrt/Debug.h>`: the process stops here. -/
def kabort {σ : Type} (msg : String) (s : σ) : Outcome σ :=
  Outcome.aborted msg s

namespace ZooKeeper

/-! ## `class Watcher` -/

/-- The ten virtual capability methods of `ZooKeeper::Watcher`
(`ZooKeeper.h`, lines 62-71), each a method that returns, acting on the
observable state `σ`.  The five session methods take no argument, the five
node methods take the path. -/
structure Watcher (σ : Type) where
  OnConnected : σ → σ
  OnConnecting : σ → σ
  OnSessionExpired : σ → σ
  OnCreated : String → σ → σ
  OnDeleted : String → σ → σ
  OnChanged : String → σ → σ
  OnChildChanged : String → σ → σ
  OnNotWatching : String → σ → σ
  OnAuthFailed : σ → σ
  OnAssociating : σ → σ

namespace Watcher

/-- The base class itself: every capability method has the empty body. -/
def base {σ : Type} : Watcher σ where
  OnConnected := fun s => s
  OnConnecting := fun s => s
  OnSessionExpired := fun s => s
  OnCreated := fun _ s => s
  OnDeleted := fun _ s => s
  OnChanged := fun _ s => s
  OnChildChanged := fun _ s => s
  OnNotWatching := fun _ s => s
  OnAuthFailed := fun s => s
  OnAssociating := fun s => s

/-- The body of `Watcher::WatchHandler(int type, int state, const char *path)`
(`ZooKeeper.h`, lines 72-100), branch for branch. -/
def WatchHandler {σ : Type} (c : ZooConsts) (w : Watcher σ)
    (type state : Int) (path : String) (s : σ) : Outcome σ :=
  if type = c.ZOO_SESSION_EVENT then
    if state = c.ZOO_EXPIRED_SESSION_STATE then
      Outcome.returned (w.OnSessionExpired s)
    else if state = c.ZOO_CONNECTED_STATE then
      Outcome.returned (w.OnConnected s)
    else if state = c.ZOO_CONNECTING_STATE then
      Outcome.returned (w.OnConnecting s)
    else if state = c.ZOO_ASSOCIATING_STATE then
      Outcome.returned (w.OnAssociating s)
    else if state = c.ZOO_AUTH_FAILED_STATE then
      Outcome.returned (w.OnAuthFailed s)
    else
      kabort "unsupported session event" s
  else if type = c.ZOO_CREATED_EVENT then
    Outcome.returned (w.OnCreated path s)
  else if type = c.ZOO_DELETED_EVENT then
    Outcome.returned (w.OnDeleted path s)
  else if type = c.ZOO_CHANGED_EVENT then
    Outcome.returned (w.OnChanged path s)
  else if type = c.ZOO_CHILD_EVENT then
    Outcome.returned (w.OnChildChanged path s)
  else if type = c.ZOO_NOTWATCHING_EVENT then
    Outcome.returned (w.OnNotWatching path s)
  else
    kabort "unsupported event type" s

end Watcher

/-! ## Observing which capability methods run -/

/-- One invocation of a capability method, with its argument. -/
inductive Call where
  | OnConnected
  | OnConnecting
  | OnSessionExpired
  | OnCreated (path : String)
  | OnDeleted (path : String)
  | OnChanged (path : String)
  | OnChildChanged (path : String)
  | OnNotWatching (path : String)
  | OnAuthFailed
  | OnAssociating
  deriving DecidableEq, Repr

/-- A watcher that overrides every capability method to append the invocation
to a log, so that the log is exactly the sequence of methods invoked. -/
def recorder : Watcher (List Call) where
  OnConnected := fun log => log ++ [Call.OnConnected]
  OnConnecting := fun log => log ++ [Call.OnConnecting]
  OnSessionExpired := fun log => log ++ [Call.OnSessionExpired]
  OnCreated := fun path log => log ++ [Call.OnCreated path]
  OnDeleted := fun path log => log ++ [Call.OnDeleted path]
  OnChanged := fun path log => log ++ [Call.OnChanged path]
  OnChildChanged := fun path log => log ++ [Call.OnChildChanged path]
  OnNotWatching := fun path log => log ++ [Call.OnNotWatching path]
  OnAuthFailed := fun log => log ++ [Call.OnAuthFailed]
  OnAssociating := fun log => log ++ [Call.OnAssociating]

/-- The capability methods that `WatchHandler(type, state, path)` invokes, in
order, and whether the call returned or aborted. -/
def invoked (c : ZooConsts) (type state : Int) (path : String) : Outcome (List Call) :=
  Watcher.WatchHandler c recorder type state path []

end ZooKeeper

end ebbrt

/-! ## The application watcher of `zk.cc` -/

/-- The `class PrinterWatcher` of `zk.cc` (lines 12-22): eight capability
methods are overridden to call `printer->Print` with a literal, and
`OnAuthFailed` and `OnAssociating` are inherited from the base class.  The
`Print` of the `Printer` Ebb (`Printer.h`) is a parameter. -/
def PrinterWatcher {σ : Type} (Print : String → σ → σ) : ebbrt.ZooKeeper.Watcher σ where
  OnConnected := fun s => Print "watch alert: Session Connected.\n" s
  OnConnecting := fun s => Print "watch alert: Session Conneting.\n" s
  OnSessionExpired := fun s => Print "watch alert: Session Expired.\n" s
  OnCreated := fun _ s => Print "watch alert: Created!\n" s
  OnDeleted := fun _ s => Print "watch alert: Deleted !\n" s
  OnChanged := fun _ s => Print "watch alert: Changed: !\n" s
  OnChildChanged := fun _ s => Print "watch alert: Child Changed.\n" s
  OnNotWatching := fun _ s => Print "watch alert: Not Wathcing.\n" s
  OnAuthFailed := ebbrt.ZooKeeper.Watcher.base.OnAuthFailed
  OnAssociating := ebbrt.ZooKeeper.Watcher.base.OnAssociating

/-- A printer whose observable state is the list of messages printed so far. -/
def printLine (msg : String) (out : List String) : List String :=
  out ++ [msg]

/-- What `PrinterWatcher` prints, starting from an empty output, when its
`WatchHandler` receives `(type, state, path)`. -/
def printed (c : ebbrt.ZooConsts) (type state : Int) (path : String) :
    ebbrt.Outcome (List String) :=
  ebbrt.ZooKeeper.Watcher.WatchHandler c (PrinterWatcher printLine) type state path []

/-! ## The registry: `Create` and `HandleFault` -/

namespace ebbrt

/-- The `constexpr int ZkConnectionTimeoutMs = 30000;` of `ZooKeeper.h`. -/
def ZkConnectionTimeoutMs : Int := 30000

/-- The `constexpr int ZkIoEventTimer = 1000;` of `ZooKeeper.h`. -/
def ZkIoEventTimer : Int := 1000

/-- An `EbbId` of EbbRT, an unsigned integer. -/
abbrev EbbId := Nat

/-- An address on the heap: the position of the object among the objects
allocated so far. -/
abbrev Ptr := Nat

/-- An `EbbRef<ZooKeeper>`: it holds the id and nothing else. -/
structure EbbRef where
  id : EbbId
  deriving DecidableEq, Repr

/-- A `ZooKeeper` object as its private constructor
`ZooKeeper(server_hosts, connection_watcher, timeout_ms, timer_ms)` receives
it.  The header only declares that constructor, so an object is represented by
the four arguments it was constructed with; `connection_watcher = none` is
`nullptr`. -/
structure ZooKeeper where
  server_hosts : String
  connection_watcher : Option Ptr
  timeout_ms : Int
  timer_ms : Int
  deriving DecidableEq, Repr

/-- A `boost::any` as the local id map stores it: it holds a `ZooKeeper *`, or
a value of some other type (the map is shared by every kind of Ebb). -/
inductive boost_any where
  | ZooKeeper_ptr (rep : Ptr)
  | other (type_name : String)
  deriving DecidableEq, Repr

/-- The `boost::any_cast<ZooKeeper *>`: the pointer held, or `none` where the
cast throws `boost::bad_any_cast` because another type is held. -/
def boost_any.any_cast : boost_any → Option Ptr
  | .ZooKeeper_ptr rep => some rep
  | .other _ => none

/-- The `local_id_map` of EbbRT: a map from ids to `boost::any`, kept as the
list of its entries with at most one entry for an id. -/
abbrev LocalIdMap := List (EbbId × boost_any)

/-- The `LocalIdMap::Find(accessor, id)`: `some` of `accessor->second` when the
id has an entry (`found` is true), `none` when it has none. -/
def LocalIdMap.Find (m : LocalIdMap) (id : EbbId) : Option boost_any :=
  List.lookup id m

/-- The `LocalIdMap::Insert(value)`: it adds the pair when the id has no entry
yet and reports that; an id that has an entry keeps it (the map is a
`tbb::concurrent_hash_map`, whose `insert` does not overwrite). -/
def LocalIdMap.Insert (m : LocalIdMap) (value : EbbId × boost_any) : Bool × LocalIdMap :=
  match LocalIdMap.Find m value.1 with
  | some _ => (false, m)
  | none => (true, m ++ [value])

/-- What the two static functions read and write: the heap of `ZooKeeper`
objects made by `new`, the `local_id_map`, and the per-core table that
`EbbRef<ZooKeeper>::CacheRef` fills. -/
structure World where
  heap : List ZooKeeper
  local_id_map : LocalIdMap
  cache : List (EbbId × Ptr)
  deriving DecidableEq, Repr

/-- What `HandleFault` throws. -/
inductive Fault where
  | runtime_error (what : String)
  | bad_any_cast
  deriving DecidableEq, Repr

namespace ZooKeeper

/-- The `static EbbRef<ZooKeeper> Create(id, server_hosts, connection_watcher,
timeout_ms, timer_ms)` of `ZooKeeper.h` (lines 103-111) with its three default
arguments: `new` puts the object at the next free address, `Insert` is called
with the pair of the id and the pointer and its result is ignored, and the
reference made from the id is returned. -/
def Create (w : World) (id : EbbId) (server_hosts : String)
    (connection_watcher : Option Ptr := none)
    (timeout_ms : Int := ZkConnectionTimeoutMs)
    (timer_ms : Int := ZkIoEventTimer) : EbbRef × World :=
  let rep : Ptr := w.heap.length
  let heap := w.heap ++ [ZooKeeper.mk server_hosts connection_watcher timeout_ms timer_ms]
  let inserted := LocalIdMap.Insert w.local_id_map (id, boost_any.ZooKeeper_ptr rep)
  (EbbRef.mk id, World.mk heap inserted.2 w.cache)

/-- The `static ZooKeeper &HandleFault(EbbId id)` of `ZooKeeper.h` (lines
113-122): the thrown fault or the pointer `rep` whose object is returned by
reference, together with the world afterwards. -/
def HandleFault (w : World) (id : EbbId) : Except Fault Ptr × World :=
  match LocalIdMap.Find w.local_id_map id with
  | none => (Except.error (Fault.runtime_error "Failed to find root for ZooKeeper Ebb"), w)
  | some held =>
    match held.any_cast with
    | none => (Except.error Fault.bad_any_cast, w)
    | some rep => (Except.ok rep, World.mk w.heap w.local_id_map ((id, rep) :: w.cache))

end ZooKeeper

end ebbrt

/-! ## The completion bridge -/

namespace ebbrt

/-- The `typedef struct Stat ZkStat;` with the fields listed in `ZooKeeper.h`
(lines 29-41). -/
structure ZkStat where
  czxid : Int
  mzxid : Int
  ctime : Int
  mtime : Int
  version : Int
  cversion : Int
  aversion : Int
  ephemeralOwner : Int
  dataLength : Int
  numChildren : Int
  pzxid : Int
  deriving DecidableEq, Repr

namespace ZooKeeper

/-- The `struct Znode` of `ZooKeeper.h` (lines 45-49). -/
structure Znode where
  err : Int
  value : String
  stat : ZkStat
  deriving DecidableEq, Repr

/-- The `struct ZnodeChildren` of `ZooKeeper.h` (lines 51-55). -/
structure ZnodeChildren where
  err : Int
  values : List String
  stat : ZkStat
  deriving DecidableEq, Repr

/-- What a future of the adapter resolves with: `Future<Znode>` for five of the
operations, `Future<ZnodeChildren>` for `GetChildren`. -/
inductive Resolved where
  | znode (r : Znode)
  | children (r : ZnodeChildren)
  deriving DecidableEq, Repr

/-- The error code carried by a resolved value. -/
def Resolved.err : Resolved → Int
  | .znode r => r.err
  | .children r => r.err

/-- The outputs the client hands to a completion function besides `rc`: the
byte buffer, the created name, the child names, the stat (the parameters of
the `my_*_completion` functions declared in `ZooKeeper.h`, lines 150-166). -/
structure Outputs where
  value : Option String
  name : Option String
  strings : List String
  stat : Option ZkStat
  deriving DecidableEq, Repr

/-- No outputs at all. -/
def Outputs.none : Outputs :=
  Outputs.mk Option.none Option.none [] Option.none

end ZooKeeper

end ebbrt

/-! ## Routing of watch notifications -/

namespace ebbrt

namespace ZooKeeper

open Watcher

/-- The inequalities between the event-type constants, in the direction in
which the handler compares them. -/
theorem types_ne (c : ZooConsts) (ht : c.TypesDistinct) :
    (c.ZOO_CREATED_EVENT ≠ c.ZOO_SESSION_EVENT ∧ c.ZOO_DELETED_EVENT ≠ c.ZOO_SESSION_EVENT
      ∧ c.ZOO_CHANGED_EVENT ≠ c.ZOO_SESSION_EVENT ∧ c.ZOO_CHILD_EVENT ≠ c.ZOO_SESSION_EVENT
      ∧ c.ZOO_NOTWATCHING_EVENT ≠ c.ZOO_SESSION_EVENT)
    ∧ (c.ZOO_DELETED_EVENT ≠ c.ZOO_CREATED_EVENT ∧ c.ZOO_CHANGED_EVENT ≠ c.ZOO_CREATED_EVENT
      ∧ c.ZOO_CHILD_EVENT ≠ c.ZOO_CREATED_EVENT ∧ c.ZOO_NOTWATCHING_EVENT ≠ c.ZOO_CREATED_EVENT)
    ∧ (c.ZOO_CHANGED_EVENT ≠ c.ZOO_DELETED_EVENT ∧ c.ZOO_CHILD_EVENT ≠ c.ZOO_DELETED_EVENT
      ∧ c.ZOO_NOTWATCHING_EVENT ≠ c.ZOO_DELETED_EVENT)
    ∧ (c.ZOO_CHILD_EVENT ≠ c.ZOO_CHANGED_EVENT ∧ c.ZOO_NOTWATCHING_EVENT ≠ c.ZOO_CHANGED_EVENT)
    ∧ c.ZOO_NOTWATCHING_EVENT ≠ c.ZOO_CHILD_EVENT := by
  simp only [ZooConsts.TypesDistinct, List.nodup_cons, List.mem_cons, List.mem_singleton,
    List.not_mem_nil, not_or, List.nodup_nil, not_false_eq_true, and_true] at ht
  obtain ⟨⟨a1, a2, a3, a4, a5⟩, ⟨b1, b2, b3, b4⟩, ⟨d1, d2, d3⟩, ⟨e1, e2⟩, f1⟩ := ht
  exact ⟨⟨Ne.symm a1, Ne.symm a2, Ne.symm a3, Ne.symm a4, Ne.symm a5⟩,
    ⟨Ne.symm b1, Ne.symm b2, Ne.symm b3, Ne.symm b4⟩,
    ⟨Ne.symm d1, Ne.symm d2, Ne.symm d3⟩, ⟨Ne.symm e1, Ne.symm e2⟩, Ne.symm f1⟩

/-- The inequalities between the session-state constants, in the direction in
which the handler compares them. -/
theorem states_ne (c : ZooConsts) (hs : c.StatesDistinct) :
    (c.ZOO_CONNECTED_STATE ≠ c.ZOO_EXPIRED_SESSION_STATE
      ∧ c.ZOO_CONNECTING_STATE ≠ c.ZOO_EXPIRED_SESSION_STATE
      ∧ c.ZOO_ASSOCIATING_STATE ≠ c.ZOO_EXPIRED_SESSION_STATE
      ∧ c.ZOO_AUTH_FAILED_STATE ≠ c.ZOO_EXPIRED_SESSION_STATE)
    ∧ (c.ZOO_CONNECTING_STATE ≠ c.ZOO_CONNECTED_STATE
      ∧ c.ZOO_ASSOCIATING_STATE ≠ c.ZOO_CONNECTED_STATE
      ∧ c.ZOO_AUTH_FAILED_STATE ≠ c.ZOO_CONNECTED_STATE)
    ∧ (c.ZOO_ASSOCIATING_STATE ≠ c.ZOO_CONNECTING_STATE
      ∧ c.ZOO_AUTH_FAILED_STATE ≠ c.ZOO_CONNECTING_STATE)
    ∧ c.ZOO_AUTH_FAILED_STATE ≠ c.ZOO_ASSOCIATING_STATE := by
  simp only [ZooConsts.StatesDistinct, List.nodup_cons, List.mem_cons, List.mem_singleton,
    List.not_mem_nil, not_or, List.nodup_nil, not_false_eq_true, and_true] at hs
  obtain ⟨⟨a1, a2, a3, a4⟩, ⟨b1, b2, b3⟩, ⟨d1, d2⟩, e1⟩ := hs
  exact ⟨⟨Ne.symm a1, Ne.symm a2, Ne.symm a3, Ne.symm a4⟩,
    ⟨Ne.symm b1, Ne.symm b2, Ne.symm b3⟩, ⟨Ne.symm d1, Ne.symm d2⟩, Ne.symm e1⟩

/-- C1: for a session-level event the handler invokes exactly one capability
method, chosen by the session state (expired, connected, connecting,
associating, auth-failed), it returns without aborting, and the path plays no
part: the five methods take no argument and the outcome is the same for every
path. -/
theorem WatchHandler_session_event (c : ZooConsts) (hs : c.StatesDistinct)
    {σ : Type} (w : Watcher σ) (path : String) (s : σ) :
    (WatchHandler c w c.ZOO_SESSION_EVENT c.ZOO_EXPIRED_SESSION_STATE path s
        = Outcome.returned (w.OnSessionExpired s)
      ∧ invoked c c.ZOO_SESSION_EVENT c.ZOO_EXPIRED_SESSION_STATE path
        = Outcome.returned [Call.OnSessionExpired])
    ∧ (WatchHandler c w c.ZOO_SESSION_EVENT c.ZOO_CONNECTED_STATE path s
        = Outcome.returned (w.OnConnected s)
      ∧ invoked c c.ZOO_SESSION_EVENT c.ZOO_CONNECTED_STATE path
        = Outcome.returned [Call.OnConnected])
    ∧ (WatchHandler c w c.ZOO_SESSION_EVENT c.ZOO_CONNECTING_STATE path s
        = Outcome.returned (w.OnConnecting s)
      ∧ invoked c c.ZOO_SESSION_EVENT c.ZOO_CONNECTING_STATE path
        = Outcome.returned [Call.OnConnecting])
    ∧ (WatchHandler c w c.ZOO_SESSION_EVENT c.ZOO_ASSOCIATING_STATE path s
        = Outcome.returned (w.OnAssociating s)
      ∧ invoked c c.ZOO_SESSION_EVENT c.ZOO_ASSOCIATING_STATE path
        = Outcome.returned [Call.OnAssociating])
    ∧ (WatchHandler c w c.ZOO_SESSION_EVENT c.ZOO_AUTH_FAILED_STATE path s
        = Outcome.returned (w.OnAuthFailed s)
      ∧ invoked c c.ZOO_SESSION_EVENT c.ZOO_AUTH_FAILED_STATE path
        = Outcome.returned [Call.OnAuthFailed])
    ∧ (∀ (state : Int) (other : String),
        WatchHandler c w c.ZOO_SESSION_EVENT state path s
          = WatchHandler c w c.ZOO_SESSION_EVENT state other s) := by
  obtain ⟨⟨a1, a2, a3, a4⟩, ⟨b1, b2, b3⟩, ⟨d1, d2⟩, e1⟩ := states_ne c hs
  simp [WatchHandler, invoked, recorder, *]

/-- Witness for the session routing at the constants of the C client: the connected and the
auth-failed session events. -/
theorem WatchHandler_session_event_witness :
    zookeeper_h.StatesDistinct
      ∧ invoked zookeeper_h (-1) 3 "/zk" = Outcome.returned [Call.OnConnected]
      ∧ invoked zookeeper_h (-1) (-113) "/zk" = Outcome.returned [Call.OnAuthFailed] :=
  ⟨by decide,
    (WatchHandler_session_event zookeeper_h (by decide) recorder "/zk" []).2.1.2,
    (WatchHandler_session_event zookeeper_h (by decide) recorder "/zk" []).2.2.2.2.1.2⟩

/-- C2: for a node-level event the handler invokes exactly one capability
method, with the path it was given: created, deleted, changed, child and
not-watching events go to `OnCreated`, `OnDeleted`, `OnChanged`,
`OnChildChanged` and `OnNotWatching`; this holds for every state and every
path, so the method chosen depends on neither. -/
theorem WatchHandler_node_event (c : ZooConsts) (ht : c.TypesDistinct)
    {σ : Type} (w : Watcher σ) (state : Int) (path : String) (s : σ) :
    (WatchHandler c w c.ZOO_CREATED_EVENT state path s = Outcome.returned (w.OnCreated path s)
      ∧ invoked c c.ZOO_CREATED_EVENT state path = Outcome.returned [Call.OnCreated path])
    ∧ (WatchHandler c w c.ZOO_DELETED_EVENT state path s = Outcome.returned (w.OnDeleted path s)
      ∧ invoked c c.ZOO_DELETED_EVENT state path = Outcome.returned [Call.OnDeleted path])
    ∧ (WatchHandler c w c.ZOO_CHANGED_EVENT state path s = Outcome.returned (w.OnChanged path s)
      ∧ invoked c c.ZOO_CHANGED_EVENT state path = Outcome.returned [Call.OnChanged path])
    ∧ (WatchHandler c w c.ZOO_CHILD_EVENT state path s
        = Outcome.returned (w.OnChildChanged path s)
      ∧ invoked c c.ZOO_CHILD_EVENT state path = Outcome.returned [Call.OnChildChanged path])
    ∧ (WatchHandler c w c.ZOO_NOTWATCHING_EVENT state path s
        = Outcome.returned (w.OnNotWatching path s)
      ∧ invoked c c.ZOO_NOTWATCHING_EVENT state path
        = Outcome.returned [Call.OnNotWatching path]) := by
  obtain ⟨⟨a1, a2, a3, a4, a5⟩, ⟨b1, b2, b3, b4⟩, ⟨d1, d2, d3⟩, ⟨e1, e2⟩, f1⟩ := types_ne c ht
  simp [WatchHandler, invoked, recorder, *]

/-- Witness for the node routing at the constants of the C client: a child event and a
not-watching event, with a known and an unknown state. -/
theorem WatchHandler_node_event_witness :
    zookeeper_h.TypesDistinct
      ∧ invoked zookeeper_h 4 (-112) "/a/b" = Outcome.returned [Call.OnChildChanged "/a/b"]
      ∧ invoked zookeeper_h (-2) 77 "/a" = Outcome.returned [Call.OnNotWatching "/a"] :=
  ⟨by decide,
    (WatchHandler_node_event zookeeper_h (by decide) recorder (-112) "/a/b" []).2.2.2.1.2,
    (WatchHandler_node_event zookeeper_h (by decide) recorder 77 "/a" []).2.2.2.2.2⟩

/-- C3: a session-level event whose state is none of the five session states
aborts with "unsupported session event" before any capability method is
invoked, and a session-level event aborts only then. -/
theorem WatchHandler_session_event_abort (c : ZooConsts) {σ : Type} (w : Watcher σ)
    (state : Int) (path : String) (s : σ) :
    (¬ c.KnownState state →
        WatchHandler c w c.ZOO_SESSION_EVENT state path s
          = Outcome.aborted "unsupported session event" s
        ∧ invoked c c.ZOO_SESSION_EVENT state path
          = Outcome.aborted "unsupported session event" [])
    ∧ ((WatchHandler c w c.ZOO_SESSION_EVENT state path s).isAborted = true
        ↔ ¬ c.KnownState state) := by
  unfold ZooConsts.KnownState WatchHandler invoked
  constructor
  · intro h
    simp only [not_or] at h
    obtain ⟨h1, h2, h3, h4, h5⟩ := h
    simp [WatchHandler, kabort, h1, h2, h3, h4, h5]
  · simp only [if_true]
    split_ifs <;> simp_all [kabort, Outcome.isAborted]

/-- Witness for the session abort: state 0 is no session state of the C client. -/
theorem WatchHandler_session_event_abort_witness :
    ¬ zookeeper_h.KnownState 0
      ∧ invoked zookeeper_h zookeeper_h.ZOO_SESSION_EVENT 0 "/zk"
        = Outcome.aborted "unsupported session event" [] :=
  ⟨by decide,
    ((WatchHandler_session_event_abort zookeeper_h recorder 0 "/zk" []).1 (by decide)).2⟩

/-- C4: an event whose type is none of the six event types aborts with
"unsupported event type" before any capability method is invoked, whatever
the state and the path. -/
theorem WatchHandler_unknown_type_abort (c : ZooConsts) {σ : Type} (w : Watcher σ)
    (type state : Int) (path : String) (s : σ) (h : ¬ c.KnownType type) :
    WatchHandler c w type state path s = Outcome.aborted "unsupported event type" s
      ∧ invoked c type state path = Outcome.aborted "unsupported event type" [] := by
  simp only [ZooConsts.KnownType, ZooConsts.NodeEvent, not_or] at h
  obtain ⟨h0, h1, h2, h3, h4, h5⟩ := h
  simp [WatchHandler, invoked, kabort, h0, h1, h2, h3, h4, h5]

/-- Witness for the type abort: type 5 is no event type of the C client. -/
theorem WatchHandler_unknown_type_abort_witness :
    ¬ zookeeper_h.KnownType 5
      ∧ invoked zookeeper_h 5 3 "/zk" = Outcome.aborted "unsupported event type" [] :=
  ⟨by decide, (WatchHandler_unknown_type_abort zookeeper_h recorder 5 3 "/zk" [] (by decide)).2⟩

/-- Counterexample to aborting on every unknown session state: the created
event of the C client paired with the state 0, which is none of the five
session states, does not abort; the handler invokes `OnCreated` with the path
and returns. -/
theorem WatchHandler_node_event_unknown_state :
    ¬ zookeeper_h.KnownState 0
      ∧ invoked zookeeper_h zookeeper_h.ZOO_CREATED_EVENT 0 "/a"
        = Outcome.returned [Call.OnCreated "/a"]
      ∧ ¬ (∀ (type state : Int) (path : String),
            (¬ zookeeper_h.KnownType type ∨ ¬ zookeeper_h.KnownState state) →
              (invoked zookeeper_h type state path).isAborted = true) := by
  refine ⟨by decide, by decide, fun h => ?_⟩
  have h1 := h 1 0 "/a" (Or.inr (by decide))
  revert h1
  decide

/-- C5, amended: the handler aborts exactly when the event type is unknown, or
the event is a session event and the state is unknown; when it aborts no
capability method has been invoked. -/
theorem WatchHandler_abort_iff (c : ZooConsts) {σ : Type} (w : Watcher σ)
    (type state : Int) (path : String) (s : σ) :
    ((WatchHandler c w type state path s).isAborted = true
        ↔ (¬ c.KnownType type ∨ (type = c.ZOO_SESSION_EVENT ∧ ¬ c.KnownState state)))
    ∧ ((invoked c type state path).isAborted = true
        ↔ (¬ c.KnownType type ∨ (type = c.ZOO_SESSION_EVENT ∧ ¬ c.KnownState state)))
    ∧ ((invoked c type state path).isAborted = true
        → (invoked c type state path).state = []
          ∧ (WatchHandler c w type state path s).state = s) := by
  unfold ZooConsts.KnownType ZooConsts.NodeEvent ZooConsts.KnownState WatchHandler invoked
  unfold WatchHandler
  refine ⟨?_, ?_, ?_⟩ <;>
    split_ifs <;> simp_all [kabort, Outcome.isAborted, Outcome.state]

/-- Witness for the abort condition: an unknown type aborts with nothing invoked. -/
theorem WatchHandler_abort_iff_witness :
    (invoked zookeeper_h 9 3 "/a").isAborted = true
      ∧ (invoked zookeeper_h 9 3 "/a").state = [] :=
  ⟨by decide,
    ((WatchHandler_abort_iff zookeeper_h recorder 9 3 "/a" []).2.2 (by decide)).1⟩

/-- C6: each of the ten capability methods of the base `Watcher` leaves the
observable state as it is, so for a watcher that overrides nothing the handler
returns on every documented pair with the state unchanged. -/
theorem WatchHandler_base_noop (c : ZooConsts) (ht : c.TypesDistinct) {σ : Type}
    (type state : Int) (path : String) (s : σ) (hv : c.ValidPair type state) :
    WatchHandler c (Watcher.base : Watcher σ) type state path s = Outcome.returned s
      ∧ ((Watcher.base : Watcher σ).OnConnected s = s
        ∧ (Watcher.base : Watcher σ).OnConnecting s = s
        ∧ (Watcher.base : Watcher σ).OnSessionExpired s = s
        ∧ (Watcher.base : Watcher σ).OnAuthFailed s = s
        ∧ (Watcher.base : Watcher σ).OnAssociating s = s
        ∧ (Watcher.base : Watcher σ).OnCreated path s = s
        ∧ (Watcher.base : Watcher σ).OnDeleted path s = s
        ∧ (Watcher.base : Watcher σ).OnChanged path s = s
        ∧ (Watcher.base : Watcher σ).OnChildChanged path s = s
        ∧ (Watcher.base : Watcher σ).OnNotWatching path s = s) := by
  obtain ⟨⟨a1, a2, a3, a4, a5⟩, -⟩ := types_ne c ht
  refine ⟨?_, rfl, rfl, rfl, rfl, rfl, rfl, rfl, rfl, rfl, rfl⟩
  unfold WatchHandler
  rcases hv with ⟨h1, h2⟩ | h
  · subst h1
    simp only [if_true]
    split_ifs <;> first | rfl | (exfalso; unfold ZooConsts.KnownState at h2; tauto)
  · have hne : type ≠ c.ZOO_SESSION_EVENT := by
      rcases h with h | h | h | h | h <;> (rw [h]; assumption)
    simp only [hne, if_false]
    split_ifs <;> first | rfl | (exfalso; unfold ZooConsts.NodeEvent at h; tauto)

/-- Witness for the base watcher on a session event in the connected state. -/
theorem WatchHandler_base_noop_witness :
    zookeeper_h.TypesDistinct ∧ zookeeper_h.ValidPair (-1) 3
      ∧ WatchHandler zookeeper_h (Watcher.base : Watcher (List Call)) (-1) 3 "/zk"
          [Call.OnConnecting] = Outcome.returned [Call.OnConnecting] :=
  ⟨by decide, by decide,
    (WatchHandler_base_noop zookeeper_h (by decide) (-1) 3 "/zk" [Call.OnConnecting]
      (by decide)).1⟩

/-! ## The registry -/

/-- C7: `Create` with only an id and the server list constructs the object
with no connection watcher, timeout 30000 and timer 1000; arguments that are
given reach the constructor unchanged, the remaining ones take their defaults;
the reference returned holds the id. -/
theorem Create_forwards (w : World) (id : EbbId) (server_hosts : String)
    (connection_watcher : Option Ptr) (timeout_ms timer_ms : Int) :
    (Create w id server_hosts).2.heap
        = w.heap ++ [ebbrt.ZooKeeper.mk server_hosts none 30000 1000]
    ∧ (Create w id server_hosts connection_watcher).2.heap
        = w.heap ++ [ebbrt.ZooKeeper.mk server_hosts connection_watcher 30000 1000]
    ∧ (Create w id server_hosts connection_watcher timeout_ms).2.heap
        = w.heap ++ [ebbrt.ZooKeeper.mk server_hosts connection_watcher timeout_ms 1000]
    ∧ (Create w id server_hosts connection_watcher timeout_ms timer_ms).2.heap
        = w.heap ++ [ebbrt.ZooKeeper.mk server_hosts connection_watcher timeout_ms timer_ms]
    ∧ (Create w id server_hosts connection_watcher timeout_ms timer_ms).1 = EbbRef.mk id
    ∧ (Create w id server_hosts).1 = EbbRef.mk id :=
  ⟨rfl, rfl, rfl, rfl, rfl, rfl⟩

/-- A pair appended to a map that has no entry for its id is found under it. -/
theorem Find_append_of_none (m : LocalIdMap) (id : EbbId) (held : boost_any)
    (h : LocalIdMap.Find m id = none) :
    LocalIdMap.Find (m ++ [(id, held)]) id = some held := by
  unfold LocalIdMap.Find at *
  induction m with
  | nil => simp [List.lookup]
  | cons e rest ih =>
    obtain ⟨k, v⟩ := e
    simp only [List.cons_append, List.lookup] at h ⊢
    cases hk : (id == k) with
    | true => simp [hk] at h
    | false =>
      simp only [hk] at h ⊢
      exact ih h

/-- `Insert` reports an insertion exactly when the id had no entry. -/
theorem Insert_true_iff (m : LocalIdMap) (value : EbbId × boost_any) :
    (LocalIdMap.Insert m value).1 = true ↔ LocalIdMap.Find m value.1 = none := by
  unfold LocalIdMap.Insert
  cases h : LocalIdMap.Find m value.1 <;> simp

/-- C8: `HandleFault(id)` throws exactly when no `ZooKeeper` instance is
registered under the id, and it throws the runtime error "Failed to find root
for ZooKeeper Ebb" exactly when the id has no entry at all; a throwing call
leaves the world, and so the map, unchanged (no call changes the map); and
when the `Insert` of `Create(id, ...)` has inserted the new instance,
`HandleFault(id)` returns that instance, constructed from the arguments of
`Create`. -/
theorem HandleFault_lookup (w : World) (id : EbbId) :
    ((∃ f, (HandleFault w id).1 = Except.error f)
        ↔ ¬ ∃ rep, LocalIdMap.Find w.local_id_map id = some (boost_any.ZooKeeper_ptr rep))
    ∧ ((HandleFault w id).1
          = Except.error (Fault.runtime_error "Failed to find root for ZooKeeper Ebb")
        ↔ LocalIdMap.Find w.local_id_map id = none)
    ∧ ((∃ f, (HandleFault w id).1 = Except.error f) → (HandleFault w id).2 = w)
    ∧ (HandleFault w id).2.local_id_map = w.local_id_map
    ∧ (∀ (server_hosts : String) (connection_watcher : Option Ptr) (timeout_ms timer_ms : Int),
        (LocalIdMap.Insert w.local_id_map (id, boost_any.ZooKeeper_ptr w.heap.length)).1 = true →
          (HandleFault (Create w id server_hosts connection_watcher timeout_ms timer_ms).2
              (Create w id server_hosts connection_watcher timeout_ms timer_ms).1.id).1
            = Except.ok w.heap.length
          ∧ (Create w id server_hosts connection_watcher timeout_ms timer_ms).2.heap[w.heap.length]?
            = some (ebbrt.ZooKeeper.mk server_hosts connection_watcher timeout_ms timer_ms)) := by
  refine ⟨?_, ?_, ?_, ?_, ?_⟩
  · unfold HandleFault
    cases h : LocalIdMap.Find w.local_id_map id with
    | none => simp
    | some held => cases held <;> simp [boost_any.any_cast]
  · unfold HandleFault
    cases h : LocalIdMap.Find w.local_id_map id with
    | none => simp
    | some held => cases held <;> simp [boost_any.any_cast]
  · unfold HandleFault
    cases h : LocalIdMap.Find w.local_id_map id with
    | none => simp
    | some held => cases held <;> simp [boost_any.any_cast]
  · unfold HandleFault
    cases h : LocalIdMap.Find w.local_id_map id with
    | none => simp
    | some held => cases held <;> simp [boost_any.any_cast]
  · intro server_hosts connection_watcher timeout_ms timer_ms hin
    have hnone := (Insert_true_iff _ _).1 hin
    simp only at hnone
    have hfound := Find_append_of_none w.local_id_map id
      (boost_any.ZooKeeper_ptr w.heap.length) hnone
    constructor
    · simp [HandleFault, Create, LocalIdMap.Insert, hnone, hfound, boost_any.any_cast]
    · simp [Create]

/-- Witness for the registry lookup: in the world with nothing registered the
lookup of id 7 throws, and after `Create` under id 7 the lookup returns the
instance at the address `Create` allocated. -/
theorem HandleFault_lookup_witness :
    (HandleFault (World.mk [] [] []) 7).1
        = Except.error (Fault.runtime_error "Failed to find root for ZooKeeper Ebb")
      ∧ (HandleFault (Create (World.mk [] [] []) 7 "172.17.0.4:2181" none 30000 1000).2 7).1
        = Except.ok 0 :=
  ⟨(HandleFault_lookup (World.mk [] [] []) 7).2.1.2 rfl,
    ((HandleFault_lookup (World.mk [] [] []) 7).2.2.2.2 "172.17.0.4:2181" none 30000 1000
      rfl).1⟩

/-! ## The completion bridge -/

end ZooKeeper

end ebbrt

/-! ## The application watcher -/

open ebbrt ebbrt.ZooKeeper ebbrt.ZooKeeper.Watcher

/-- C10: the handler of `PrinterWatcher` prints exactly one fixed message, the
same for every path, on each documented triple, except that it prints nothing
on a session event in the associating or the auth-failed state: eight of the
ten capability methods are overridden and `OnAssociating` and `OnAuthFailed`
are the inherited no-ops. -/
theorem PrinterWatcher_prints (c : ZooConsts) (ht : c.TypesDistinct) (hs : c.StatesDistinct)
    {σ : Type} (Print : String → σ → σ) (state : Int) (path : String) (s : σ) :
    WatchHandler c (PrinterWatcher Print) c.ZOO_SESSION_EVENT c.ZOO_CONNECTED_STATE path s
        = Outcome.returned (Print "watch alert: Session Connected.\n" s)
    ∧ WatchHandler c (PrinterWatcher Print) c.ZOO_SESSION_EVENT c.ZOO_CONNECTING_STATE path s
        = Outcome.returned (Print "watch alert: Session Conneting.\n" s)
    ∧ WatchHandler c (PrinterWatcher Print) c.ZOO_SESSION_EVENT c.ZOO_EXPIRED_SESSION_STATE
          path s
        = Outcome.returned (Print "watch alert: Session Expired.\n" s)
    ∧ WatchHandler c (PrinterWatcher Print) c.ZOO_SESSION_EVENT c.ZOO_ASSOCIATING_STATE path s
        = Outcome.returned s
    ∧ WatchHandler c (PrinterWatcher Print) c.ZOO_SESSION_EVENT c.ZOO_AUTH_FAILED_STATE path s
        = Outcome.returned s
    ∧ WatchHandler c (PrinterWatcher Print) c.ZOO_CREATED_EVENT state path s
        = Outcome.returned (Print "watch alert: Created!\n" s)
    ∧ WatchHandler c (PrinterWatcher Print) c.ZOO_DELETED_EVENT state path s
        = Outcome.returned (Print "watch alert: Deleted !\n" s)
    ∧ WatchHandler c (PrinterWatcher Print) c.ZOO_CHANGED_EVENT state path s
        = Outcome.returned (Print "watch alert: Changed: !\n" s)
    ∧ WatchHandler c (PrinterWatcher Print) c.ZOO_CHILD_EVENT state path s
        = Outcome.returned (Print "watch alert: Child Changed.\n" s)
    ∧ WatchHandler c (PrinterWatcher Print) c.ZOO_NOTWATCHING_EVENT state path s
        = Outcome.returned (Print "watch alert: Not Wathcing.\n" s) := by
  obtain ⟨⟨a1, a2, a3, a4, a5⟩, ⟨b1, b2, b3, b4⟩, ⟨d1, d2, d3⟩, ⟨e1, e2⟩, f1⟩ := types_ne c ht
  obtain ⟨⟨p1, p2, p3, p4⟩, ⟨q1, q2, q3⟩, ⟨r1, r2⟩, t1⟩ := states_ne c hs
  simp [WatchHandler, PrinterWatcher, Watcher.base, *]

/-- Witness for the printing watcher at the constants of the C client: a
changed event adds one line to the output, an auth-failed session event adds
none. -/
theorem PrinterWatcher_prints_witness :
    zookeeper_h.TypesDistinct ∧ zookeeper_h.StatesDistinct
      ∧ printed zookeeper_h 3 0 "/a" = Outcome.returned ["watch alert: Changed: !\n"]
      ∧ printed zookeeper_h (-1) (-113) "/a" = Outcome.returned [] :=
  ⟨by decide, by decide,
    (PrinterWatcher_prints zookeeper_h (by decide) (by decide) printLine 0 "/a" []).2.2.2.2.2.2.2.1,
    (PrinterWatcher_prints zookeeper_h (by decide) (by decide) printLine 0 "/a" []).2.2.2.2.1⟩
